import Mathlib

/-!
Shallow embedding of the `remoteFunctionCache` repository:

* `CustomPersistedState` (persisted reactive cache cell, from
  `src/unnamed/part_005`, the revision matched by the repository's own test
  suite `CustomPersistedState.svelte.test.ts`): deep-equality guarded writes,
  same-tab sibling fan-out through a global registry, cross-process sync
  callbacks, re-keying and destruction.
* the storage providers (`MemoryStorageProvider` from `src/unnamed/part_003`,
  `LocalStorageProvider`, `SessionStorageProvider` and
  `IndexedDBStorageProvider` from
  `src/src/lib/remoteFunctionCache/storage/`): wrapped `{value, timestamp}`
  records, expiry, error swallowing.
* the binding `remoteFunctionCache`
  (`src/src/lib/remoteFunctionCache/remoteFunctionCache.svelte.ts`):
  the `refresh` state machine and the argument-change `$effect`.

JavaScript values are modelled by `JSVal`: `undef` is the absent sentinel
`undefined`; a primitive carries its value as a string (`===` is value
equality); a JSON-serializable object carries its `JSON.stringify`
serialization together with a reference identity (`===` is reference
equality); `cyc` is an object on which `JSON.stringify` throws — a cyclic
structure or a value with rich types such as BigInt — carrying its
structural content (in the sense of the devalue codec the library uses,
which does round-trip such values into the cache) and a reference identity.
On `cyc` values the `try/catch` fallback of `isEqual` returns `false` even
for content-equal, reference-distinct instances, so the setter treats such a
write as a change.
-/

/-- A JavaScript value as seen by the cache cell.  `obj` is a
JSON-serializable object (content = its `JSON.stringify` string); `cyc` is an
object on which `JSON.stringify` throws — cyclic or carrying rich types —
whose content field is its structural serialization in the devalue codec the
library actually persists with. -/
inductive JSVal : Type where
  | undef : JSVal
  | prim : String → JSVal
  | obj : String → Nat → JSVal
  | cyc : String → Nat → JSVal
deriving DecidableEq, Repr

/-- `isEqual` from `src/unnamed/part_005` lines 4-17: fast path `a === b`
(reference identity for objects, value identity for primitives), the
`a == null || b == null` guard (true for `undefined`), `typeof` check, then
`JSON.stringify` content comparison for objects inside a `try/catch` whose
`catch` returns `false`.  For `cyc` values `JSON.stringify` throws, so only
the reference-identity fast path can succeed: content-equal but
reference-distinct `cyc` values compare unequal. -/
def isEqual : JSVal → JSVal → Bool
  | JSVal.undef, JSVal.undef => true
  | JSVal.undef, _ => false
  | _, JSVal.undef => false
  | JSVal.prim a, JSVal.prim b => a == b
  | JSVal.obj c1 r1, JSVal.obj c2 r2 => (c1 == c2 && r1 == r2) || c1 == c2
  | JSVal.cyc c1 r1, JSVal.cyc c2 r2 => c1 == c2 && r1 == r2
  | _, _ => false

/-- Structural content equality as the claim's words state it ("structurally
equal (by content, not reference)").  Modelled from the spec, to be compared
with the source's `isEqual`: the two agree on `undef`, primitives and
JSON-serializable objects, but differ on `cyc` values, where `isEqual` only
recognises reference-identical instances. -/
def structurallyEqual : JSVal → JSVal → Bool
  | JSVal.undef, JSVal.undef => true
  | JSVal.prim a, JSVal.prim b => a == b
  | JSVal.obj c1 _, JSVal.obj c2 _ => c1 == c2
  | JSVal.cyc c1 _, JSVal.cyc c2 _ => c1 == c2
  | _, _ => false

/-- One `CustomPersistedState` instance (`src/unnamed/part_005` lines 22-44).
`registered` models membership in the module-level `instanceRegistry`;
`syncActive` models `storageCleanup` holding a live cross-process
subscription (set by `setupSync` when the provider supports it, cleared by
invoking the cleanup closure); `providerHasSync` records whether the
storage provider offers `setupSync`. -/
structure Cell : Type where
  key : String
  uniquekey : Option String
  current : JSVal
  initialValue : JSVal
  isUpdating : Bool
  registered : Bool
  syncActive : Bool
  providerHasSync : Bool
deriving DecidableEq, Repr

/-- `getCompositeKey` (`part_005` lines 69-71). -/
def Cell.compositeKey (c : Cell) : String :=
  match c.uniquekey with
  | some u => c.key ++ ":" ++ u
  | none => c.key

/-- Observable storage-backend effects issued by cell operations:
`bset` is a fire-and-forget `storageProvider.set` (from `saveToStorage`),
`bget` an asynchronous `storageProvider.get` (from `loadFromStorage`),
`bremove` a `storageProvider.remove`. -/
inductive Effect : Type where
  | bset : String → JSVal → Effect
  | bget : String → Effect
  | bremove : String → Effect
deriving DecidableEq, Repr

/-- The same-tab world: the list of all constructed cells. The module-level
`instanceRegistry` (`part_005` line 20) is represented by the `registered`
flag together with each cell's composite key. -/
abbrev CellSys : Type := List Cell

/-- `syncOtherInstances` (`part_005` lines 92-104): every **other** registered
instance under the same composite key whose `isUpdating` guard is clear gets
`instance.isUpdating = true; instance.current = value; instance.isUpdating =
false`.  With the guard set, the nested `set current` call takes the
unchanged branch (`hasChanged` is false) and performs a bare assignment, so
the net effect on the sibling is `current := value` with no storage write and
no further fan-out (see lemma `guarded_set_is_bare_assignment`). -/
def syncOtherInstances (s : CellSys) (selfIdx : Nat) (k : String) (v : JSVal) :
    CellSys :=
  s.mapIdx fun i c =>
    if i ≠ selfIdx && c.registered && (c.compositeKey == k) && !c.isUpdating
    then { c with current := v }
    else c

/-- The `set current` accessor (`part_005` lines 50-63) for the cell at index
`i`: computes `hasChanged = !isUpdating && !isEqual(value, current)`; when
changed, assigns the new reference and — only for a non-`undefined` value —
fires `saveToStorage` and `syncOtherInstances`; otherwise it is a bare
assignment of the new reference. Returns the new system and the backend
effects. -/
def setCurrent (s : CellSys) (i : Nat) (v : JSVal) : CellSys × List Effect :=
  match s[i]? with
  | none => (s, [])
  | some c =>
    let hasChanged := !c.isUpdating && !(isEqual v c.current)
    if hasChanged then
      let s1 := s.set i { c with current := v }
      if v ≠ JSVal.undef then
        (syncOtherInstances s1 i c.compositeKey v,
          [Effect.bset c.compositeKey v])
      else
        (s1, [])
    else
      (s.set i { c with current := v }, [])

/-- The `setupSync` notification callback (`part_005` lines 127-134) for the
cell at index `i`, as it is reachable from a cross-process change event:
the event is delivered only while the subscription is live (`syncActive`);
`v = none` models a `null` payload.  If the cell is not mid-update and the
payload is non-null, the guard is set, `#current` is assigned directly, the
guard is cleared, and the value is fanned out to same-tab siblings.  No
storage write is issued anywhere on this path. -/
def notifyCell (s : CellSys) (i : Nat) (v : Option JSVal) :
    CellSys × List Effect :=
  match s[i]? with
  | none => (s, [])
  | some c =>
    if c.syncActive then
      match v with
      | none => (s, [])
      | some x =>
        if c.isUpdating then (s, [])
        else
          let s1 := s.set i { c with current := x }
          (syncOtherInstances s1 i c.compositeKey x, [])
    else (s, [])

/-- `destroy` (`part_005` lines 182-188): unregister from the same-tab
registry; if `storageCleanup` is set, invoke it (ending the subscription) and
clear it.  The returned `Nat` counts how many times the unsubscribe closure
was invoked by this call. -/
def destroyCell (s : CellSys) (i : Nat) : CellSys × Nat :=
  match s[i]? with
  | none => (s, 0)
  | some c =>
    let c1 := { c with registered := false }
    if c1.syncActive then
      (s.set i { c1 with syncActive := false }, 1)
    else
      (s.set i c1, 0)

/-- `newKey` (`part_005` lines 141-173): capture `valueToRetain`, unregister
and unsubscribe, install the new key (and initial value when one is given —
`newInitialValue !== undefined`), keep `#current` when retaining a
non-`undefined` value, otherwise reset it to the initial value; re-register,
re-subscribe (`setupSync` succeeds when the provider supports it), start the
asynchronous `loadFromStorage` (the `bget` effect), and finally fan the
cell's current value out to the new key's siblings when it is not
`undefined`. -/
def newKey (s : CellSys) (i : Nat) (k : String) (newInit : JSVal)
    (retainValue : Bool) : CellSys × List Effect :=
  match s[i]? with
  | none => (s, [])
  | some c =>
    let valueToRetain := if retainValue then c.current else JSVal.undef
    let c1 := { c with registered := false, syncActive := false }
    let c2 := { c1 with key := k }
    let c3 :=
      if newInit ≠ JSVal.undef then { c2 with initialValue := newInit } else c2
    let c4 :=
      if retainValue && valueToRetain ≠ JSVal.undef then c3
      else { c3 with current := c3.initialValue }
    let c5 := { c4 with registered := true, syncActive := c4.providerHasSync }
    let s1 := s.set i c5
    let s2 :=
      if c5.current ≠ JSVal.undef then
        syncOtherInstances s1 i c5.compositeKey c5.current
      else s1
    (s2, [Effect.bget c5.compositeKey])

/-!
## Storage providers

A stored blob (type parameter `β`) is whatever the configured serializer
produced.  `StoredDoc` is the result of deserializing a blob: either the
wrapped `{value, timestamp}` record recognised by `isStoredData`, or a legacy
raw value.  A serializer/deserializer that throws is modelled with `Except`.
Blobs are assumed non-falsy (JSON / devalue output is never the empty
string), so `if (!stored) return null` is exactly the missing-key check.
-/

/-- A successfully parsed stored payload: the `{value, timestamp}` wrapper
(`isStoredData` true) or a legacy raw value. -/
inductive StoredDoc : Type where
  | wrapped : JSVal → Int → StoredDoc
  | legacy : JSVal → StoredDoc
deriving DecidableEq, Repr

/-- `StorageOptions` (`storage/StorageProvider.ts`): expiry configuration and
the pluggable codec.  `serialize` is applied to the wrapped record, so it
takes the value and the write timestamp. -/
structure StorageOptions (β : Type) : Type where
  timeoutMinutes : Option Int := none
  serialize : JSVal → Int → Except Unit β
  deserialize : β → Except Unit StoredDoc

/-- The backing key-value medium (`localStorage`, the module-level
`memoryStorage` map, or an IndexedDB object store). -/
abbrev Store (β : Type) : Type := List (String × β)

/-- Delete all entries under `k` (`removeItem` / `Map.delete`). -/
def storeRemove {β : Type} (store : Store β) (k : String) : Store β :=
  store.filter fun p => p.fst ≠ k

/-- Overwrite the entry under `k` (`setItem` / `Map.set` / `store.put`). -/
def storePut {β : Type} (store : Store β) (k : String) (b : β) : Store β :=
  (k, b) :: storeRemove store k

/-- `isTimeoutEnabled` (`storage/LocalStorageProvider.ts` lines 108-110, and
identically in every other provider): `timeoutMinutes != null &&
timeoutMinutes > 0`. -/
def isTimeoutEnabled (tm : Option Int) : Bool :=
  match tm with
  | none => false
  | some m => decide (0 < m)

/-- `isDataExpired` (`storage/LocalStorageProvider.ts` lines 102-106):
disabled timeout means never expired, otherwise
`Date.now() - timestamp > timeoutMinutes * 60 * 1000`. -/
def isDataExpired (tm : Option Int) (now ts : Int) : Bool :=
  if !(isTimeoutEnabled tm) then false
  else decide (now - ts > tm.getD 0 * 60000)

/-- `LocalStorageProvider.get` (`storage/LocalStorageProvider.ts` lines
10-36): missing key gives `null`; a deserializer throw is caught and gives
`null`; a wrapped record that is expired is removed and gives `null`;
otherwise the stored value (wrapped or legacy) is returned.  The function is
total: the source never lets an exception reach the caller.  Returns the
result together with the possibly-updated store. -/
def LocalStorageProvider.get {β : Type} (o : StorageOptions β)
    (store : Store β) (now : Int) (key : String) :
    Option JSVal × Store β :=
  match store.lookup key with
  | none => (none, store)
  | some blob =>
    match o.deserialize blob with
    | Except.error _ => (none, store)
    | Except.ok (StoredDoc.wrapped v ts) =>
        if isDataExpired o.timeoutMinutes now ts then
          (none, storeRemove store key)
        else (some v, store)
    | Except.ok (StoredDoc.legacy v) => (some v, store)

/-- `LocalStorageProvider.set` (`storage/LocalStorageProvider.ts` lines
38-48): wrap the value with the current timestamp, serialize and store it; a
serializer (or quota) failure is caught and swallowed, leaving the store
unchanged. -/
def LocalStorageProvider.set {β : Type} (o : StorageOptions β)
    (store : Store β) (now : Int) (key : String) (v : JSVal) : Store β :=
  match o.serialize v now with
  | Except.ok blob => storePut store key blob
  | Except.error _ => store

/-- `MemoryStorageProvider.get` (`src/unnamed/part_003` lines 13-37): same
logic as the localStorage variant, reading the module-level shared
`memoryStorage` map.  The shared map is passed explicitly; every provider
instance operates on the same one. -/
def MemoryStorageProvider.get {β : Type} (o : StorageOptions β)
    (store : Store β) (now : Int) (key : String) :
    Option JSVal × Store β :=
  match store.lookup key with
  | none => (none, store)
  | some blob =>
    match o.deserialize blob with
    | Except.error _ => (none, store)
    | Except.ok (StoredDoc.wrapped v ts) =>
        if isDataExpired o.timeoutMinutes now ts then
          (none, storeRemove store key)
        else (some v, store)
    | Except.ok (StoredDoc.legacy v) => (some v, store)

/-- `MemoryStorageProvider.set` (`src/unnamed/part_003` lines 39-49):
serialize the wrapped record into the shared map; serializer failures are
caught and swallowed. -/
def MemoryStorageProvider.set {β : Type} (o : StorageOptions β)
    (store : Store β) (now : Int) (key : String) (v : JSVal) : Store β :=
  match o.serialize v now with
  | Except.ok blob => storePut store key blob
  | Except.error _ => store

/-- `MemoryStorageProvider.remove` (`src/unnamed/part_003` lines 51-53). -/
def MemoryStorageProvider.remove {β : Type} (store : Store β) (key : String) :
    Store β :=
  storeRemove store key

/-- Static `MemoryStorageProvider.clear` (`src/unnamed/part_003` lines
93-95): empties the module-level map shared by all instances. -/
def MemoryStorageProvider.clear {β : Type} : Store β := []

/-- Static `MemoryStorageProvider.size` (`src/unnamed/part_003` lines
98-100). -/
def MemoryStorageProvider.size {β : Type} (store : Store β) : Nat :=
  store.length

/-- `IndexedDBStorageProvider.get` (`storage/IndexedDBStorageProvider.ts`
lines 15-69).  `openFails` models the lazy `getIDB()` connection rejecting
(caught by the outer `catch`, yielding `null`); `getFails` models
`request.onerror` (which resolves `null`).  Every failure path resolves, so
the promise never rejects: the result is always `Except.ok`. -/
def IndexedDBStorageProvider.get {β : Type} (o : StorageOptions β)
    (openFails getFails : Bool) (store : Store β) (now : Int) (key : String) :
    Except String (Option JSVal × Store β) :=
  if openFails then Except.ok (none, store)
  else if getFails then Except.ok (none, store)
  else
    match store.lookup key with
    | none => Except.ok (none, store)
    | some blob =>
      match o.deserialize blob with
      | Except.error _ => Except.ok (none, store)
      | Except.ok (StoredDoc.wrapped v ts) =>
          if isDataExpired o.timeoutMinutes now ts then
            Except.ok (none, storeRemove store key)
          else Except.ok (some v, store)
      | Except.ok (StoredDoc.legacy v) => Except.ok (some v, store)

/-- `IndexedDBStorageProvider.set` (`storage/IndexedDBStorageProvider.ts`
lines 71-105).  A connection-open failure or a serializer throw happens
inside the `try` block and is swallowed by the `catch` (store unchanged).
But the body ends with `return new Promise(...)` — not `return await` — so
when the `put` request fires `onerror`, the inner `reject(request.error)`
escapes the `try/catch` and the promise returned to the caller rejects:
modelled as `Except.error`. -/
def IndexedDBStorageProvider.set {β : Type} (o : StorageOptions β)
    (openFails putFails : Bool) (store : Store β) (now : Int) (key : String)
    (v : JSVal) : Except String (Store β) :=
  if openFails then Except.ok store
  else
    match o.serialize v now with
    | Except.error _ => Except.ok store
    | Except.ok blob =>
        if putFails then Except.error "request.error"
        else Except.ok (storePut store key blob)

/-!
## The remote-function cache binding

`remoteFunctionCache` (`src/src/lib/remoteFunctionCache/remoteFunctionCache.svelte.ts`).
`runRefresh` captures the settled state of one `refresh(callFunction)` call's
`executeFunction` coroutine (lines 66-131): the busy-wait on
`state.isLoading` has completed and `valueAfterWait` is the cell value seen
after it; `callResult` is how the remote call settled (it is consulted only
when the call is actually made).  The `finally` block (lines 123-127) runs on
every path — including the early cache-hit `return` — so `updateTime` is
always stamped and both flags always end false.  Errors are captured by the
`catch` into the `error` field; `executeFunction` itself never throws to the
caller of `refresh`, which is reflected by `runRefresh` being a total
function into `RefreshOutcome`.
-/

/-- The binding-visible outcome of one settled `refresh` call. -/
structure RefreshOutcome : Type where
  refreshing : Bool
  loading : Bool
  error : Option String
  called : Bool
  value : JSVal
  updateStamped : Bool
deriving DecidableEq, Repr

/-- One settled `refresh(callFunction)` (lines 66-131 of
`remoteFunctionCache.svelte.ts`): cache-hit short-circuit when a value is
present and the call is not forced (lines 93-98); otherwise the remote call
runs and on success the result is written into the cell, on failure the error
is captured and the cell value is left unchanged (lines 105-127). -/
def runRefresh (callFunction : Bool) (valueAfterWait : JSVal)
    (callResult : Except String JSVal) : RefreshOutcome :=
  if valueAfterWait ≠ JSVal.undef && !callFunction then
    { refreshing := false, loading := false, error := none, called := false,
      value := valueAfterWait, updateStamped := true }
  else
    match callResult with
    | Except.ok r =>
        { refreshing := false, loading := false, error := none, called := true,
          value := r, updateStamped := true }
    | Except.error e =>
        { refreshing := false, loading := false, error := some e,
          called := true, value := valueAfterWait, updateStamped := true }

/-- `argToKey` (`remoteFunctionCache.svelte.ts` line 8) is
`JSON.stringify(arg)`; the argument's serialized form is taken as input
below, and this abbreviation documents the composite-key construction
`` `${functionKey}-${currentKey}` `` (line 140). -/
def bindingCompositeKey (functionKey argKey : String) : String :=
  functionKey ++ "-" ++ argKey

/-- The argument-change `$effect` body (`remoteFunctionCache.svelte.ts`
lines 134-144) acting on the cell at index `i` of the same-tab world:
if the serialized argument key differs from `prevArgToKey`, record it, call
`state.newKey(compositeKey, initialValue)` — the `retainValue` parameter of
`newKey` is **not** passed and so defaults to `false` — and trigger one
`refresh()`.  Returns the new system, the new `prevArgToKey`, the number of
`refresh` calls made, and the backend effects. -/
def argChangeEffect (functionKey : String) (initialValue : JSVal)
    (s : CellSys) (i : Nat) (prevArgToKey : Option String)
    (currentKey : String) :
    CellSys × Option String × Nat × List Effect :=
  if prevArgToKey ≠ some currentKey then
    let r := newKey s i (bindingCompositeKey functionKey currentKey)
      initialValue false
    (r.fst, some currentKey, 1, r.snd)
  else
    (s, prevArgToKey, 0, [])

/-- A registered, subscribed cell with no namespacing suffix, as the binding
constructs it (`remoteFunctionCache.svelte.ts` lines 50-54, `uniquekey`
omitted); used by the concrete witnesses below. -/
def sampleCell (k : String) (cur : JSVal) : Cell :=
  { key := k, uniquekey := none, current := cur, initialValue := JSVal.undef,
    isUpdating := false, registered := true, syncActive := true,
    providerHasSync := true }

/-- The identity codec over `StoredDoc` blobs: a concrete instantiation of
the pluggable serializer satisfying the round-trip property (standing in for
the default JSON codec or the devalue codec the binding configures), used by
the concrete witnesses below. -/
def idOptions (tm : Option Int) : StorageOptions StoredDoc :=
  { timeoutMinutes := tm,
    serialize := fun v ts => Except.ok (StoredDoc.wrapped v ts),
    deserialize := fun b => Except.ok b }

/-- A codec whose serializer and deserializer always throw (a value the
configured serializer cannot round-trip, or a corrupted stored blob); used by
the concrete witnesses to exercise the error-handling paths. -/
def failingOptions : StorageOptions StoredDoc :=
  { timeoutMinutes := none,
    serialize := fun _ _ => Except.error (),
    deserialize := fun _ => Except.error () }

/-!
## Theorems
-/

/-- Justification for the flattened fan-out in `syncOtherInstances`: a
`current` write performed while the cell's `isUpdating` guard is set takes
the unchanged branch of the setter and is a bare assignment — no storage
write, no fan-out.  This is the reentrancy-guard mechanism of
`part_005` lines 97-100. -/
theorem guarded_set_is_bare_assignment (s : CellSys) (i : Nat) (c : Cell)
    (v : JSVal) (hc : s[i]? = some c) (hu : c.isUpdating = true) :
    setCurrent s i v = (s.set i { c with current := v }, []) := by
  unfold setCurrent
  rw [hc]
  simp [hu]

/-- C1 counterexample: the claim quantifies over every structurally
content-equal write, but for a value on which `JSON.stringify` throws (a
cyclic or rich-typed object, which the library's devalue codec does cache),
the `catch` branch of `isEqual` (`part_005` lines 13-16) returns `false` for
a content-equal but reference-distinct instance.  The setter therefore takes
the `hasChanged` branch and DOES invoke the backend's `set` and the sibling
fan-out — refuting "the write invokes neither the backend's `set` nor the
propagation". -/
theorem equal_write_cyclic_counterexample :
    structurallyEqual (JSVal.cyc "x" 2)
        (sampleCell "k" (JSVal.cyc "x" 1)).current = true ∧
    isEqual (JSVal.cyc "x" 2) (sampleCell "k" (JSVal.cyc "x" 1)).current
      = false ∧
    (setCurrent [sampleCell "k" (JSVal.cyc "x" 1), sampleCell "k" (JSVal.prim "b")]
        0 (JSVal.cyc "x" 2)).snd = [Effect.bset "k" (JSVal.cyc "x" 2)] ∧
    (setCurrent [sampleCell "k" (JSVal.cyc "x" 1), sampleCell "k" (JSVal.prim "b")]
        0 (JSVal.cyc "x" 2)).fst[1]? =
      some { sampleCell "k" (JSVal.prim "b") with current := JSVal.cyc "x" 2 } := by
  refine ⟨by decide, by decide, by decide, by decide⟩

/-- C1 (amended): a write of a value that the source's `isEqual` recognises
as equal to the cell's current value invokes neither the backend's `set` nor
the fan-out to same-tab sibling cells — the system is unchanged except that
the cell's stored reference becomes the new instance `v`, so a subsequent
read returns the new instance (`part_005` lines 50-63: `hasChanged` is
false, the `else` branch runs the bare assignment).  `isEqual` recognises
content equality only for values `JSON.stringify` can serialize (primitives
and plain JSON objects); for values on which it throws, only a
reference-identical re-set qualifies, and a content-equal but
reference-distinct write of such a value is treated as a change and is
persisted and propagated. -/
theorem equal_write_updates_reference_only (s : CellSys) (i : Nat) (c : Cell)
    (v : JSVal) (hc : s[i]? = some c) (heq : isEqual v c.current = true) :
    setCurrent s i v = (s.set i { c with current := v }, []) := by
  unfold setCurrent
  rw [hc]
  simp [heq]

/-- C1 witness: two same-key cells; writing an object that is content-equal
but reference-distinct from cell 0's current value produces no backend `set`,
leaves the sibling untouched, and swaps in the new reference. -/
theorem equal_write_updates_reference_only_witness :
    isEqual (JSVal.obj "x" 2) (sampleCell "k" (JSVal.obj "x" 1)).current = true
      ∧
    setCurrent [sampleCell "k" (JSVal.obj "x" 1), sampleCell "k" (JSVal.prim "b")]
        0 (JSVal.obj "x" 2) =
      ([{ sampleCell "k" (JSVal.obj "x" 1) with current := JSVal.obj "x" 2 },
        sampleCell "k" (JSVal.prim "b")], []) := by
  refine ⟨by decide, ?_⟩
  have h := equal_write_updates_reference_only
    [sampleCell "k" (JSVal.obj "x" 1), sampleCell "k" (JSVal.prim "b")] 0
    (sampleCell "k" (JSVal.obj "x" 1)) (JSVal.obj "x" 2) rfl (by decide)
  simpa using h

/-- C8: writing the absent sentinel `undefined` never invokes the backend's
`set` (the previously persisted record is untouched: no `bset`/`bremove`
effect is issued) and never fans out, while the in-memory `currentValue`
still becomes `undefined`.  Both branches of the setter agree: if the value
was already `undefined` the unchanged branch runs; otherwise `hasChanged` is
true but the `value !== undefined` guard (`part_005` line 56) skips
`saveToStorage` and `syncOtherInstances`. -/
theorem undefined_write_is_never_persisted (s : CellSys) (i : Nat) (c : Cell)
    (hc : s[i]? = some c) :
    setCurrent s i JSVal.undef = (s.set i { c with current := JSVal.undef }, []) := by
  unfold setCurrent
  rw [hc]
  cases h : (!c.isUpdating && !(isEqual JSVal.undef c.current)) <;> simp [h]

/-- C8 witness: writing `undefined` over a present primitive value issues no
backend effect and leaves the sibling untouched, while the cell's value
becomes `undefined`. -/
theorem undefined_write_is_never_persisted_witness :
    setCurrent [sampleCell "k" (JSVal.prim "a"), sampleCell "k" (JSVal.prim "b")]
        0 JSVal.undef =
      ([{ sampleCell "k" (JSVal.prim "a") with current := JSVal.undef },
        sampleCell "k" (JSVal.prim "b")], []) := by
  have h := undefined_write_is_never_persisted
    [sampleCell "k" (JSVal.prim "a"), sampleCell "k" (JSVal.prim "b")] 0
    (sampleCell "k" (JSVal.prim "a")) rfl
  simpa using h

/-- C6: when the remote call is actually made (the refresh was forced, or the
cell held no value after the wait) and it throws `e`, the settled outcome has
`error = e`, the cell value unchanged from before the call, `updateTime`
stamped by the `finally` block, and both `refreshing` and `loading` false.
The failure is captured by the `catch` inside `executeFunction`
(`remoteFunctionCache.svelte.ts` lines 121-127) and is never thrown to the
caller of `refresh`, which is reflected by `runRefresh` being total. -/
theorem refresh_failure_captures_error (force : Bool) (v : JSVal) (e : String)
    (hcall : force = true ∨ v = JSVal.undef) :
    runRefresh force v (Except.error e) =
      { refreshing := false, loading := false, error := some e, called := true,
        value := v, updateStamped := true } := by
  rcases hcall with h | h <;> simp [runRefresh, h]

/-- C6 witness: a forced refresh over a cached value `"old"` whose remote
call throws `"boom"` ends with `error = "boom"`, the value still `"old"`,
flags cleared and `updateTime` stamped. -/
theorem refresh_failure_captures_error_witness :
    runRefresh true (JSVal.prim "old") (Except.error "boom") =
      { refreshing := false, loading := false, error := some "boom",
        called := true, value := JSVal.prim "old", updateStamped := true } :=
  refresh_failure_captures_error true (JSVal.prim "old") "boom" (Or.inl rfl)

/-- C7: a non-forced refresh that finds a value in the cell after the
backend-loading wait short-circuits (`remoteFunctionCache.svelte.ts` lines
93-98): the remote function is not invoked (`called = false`), and
`refreshing` and `loading` are both cleared. -/
theorem refresh_cache_hit_short_circuits (v : JSVal)
    (res : Except String JSVal) (hv : v ≠ JSVal.undef) :
    runRefresh false v res =
      { refreshing := false, loading := false, error := none, called := false,
        value := v, updateStamped := true } := by
  simp [runRefresh, hv]

/-- C7 witness: a non-forced refresh over cached value `"cached"` does not
call the remote function even though the call would have succeeded. -/
theorem refresh_cache_hit_short_circuits_witness :
    runRefresh false (JSVal.prim "cached") (Except.ok (JSVal.prim "fresh")) =
      { refreshing := false, loading := false, error := none, called := false,
        value := JSVal.prim "cached", updateStamped := true } :=
  refresh_cache_hit_short_circuits (JSVal.prim "cached")
    (Except.ok (JSVal.prim "fresh")) (by decide)

/-- Index bound extracted from a successful lookup (helper). -/
theorem lt_length_of_getElem?_eq_some {s : CellSys} {i : Nat} {c : Cell}
    (hc : s[i]? = some c) : i < s.length := by
  rcases List.getElem?_eq_some.mp hc with ⟨h, _⟩
  exact h

/-- `syncOtherInstances` never touches the source cell itself
(`instance !== this`, `part_005` line 97). -/
theorem syncOtherInstances_self (s : CellSys) (i : Nat) (k : String)
    (v : JSVal) : (syncOtherInstances s i k v)[i]? = s[i]? := by
  rw [syncOtherInstances, List.getElem?_mapIdx]
  cases s[i]? <;> simp

/-- Action of `syncOtherInstances` on a cell other than the source: the
sibling adopts the value exactly when it is registered under the same
composite key and its reentrancy guard is clear (helper). -/
theorem syncOtherInstances_other (s : CellSys) (i j : Nat) (k : String)
    (v : JSVal) (hji : j ≠ i) :
    (syncOtherInstances s i k v)[j]? =
      Option.map
        (fun cj => if cj.registered && (cj.compositeKey == k) && !cj.isUpdating
                   then { cj with current := v } else cj) s[j]? := by
  rw [syncOtherInstances, List.getElem?_mapIdx]
  cases s[j]? <;> simp [hji]

/-- C9: `destroy` is terminal and idempotent.  After a `destroy`, the cell is
unsubscribed, so no later cross-process notification reaches the callback or
mutates any `currentValue`; a second `destroy` changes nothing and invokes
the unsubscribe closure zero further times (`part_005` lines 182-188:
`storageCleanup` is cleared after the first invocation).  `destroyCell` is a
total function, reflecting that repeat calls never throw; together the
second and third conjuncts give the fixpoint making every later `destroy` a
no-op. -/
theorem destroy_is_terminal (s : CellSys) (i : Nat) (c : Cell)
    (hc : s[i]? = some c) :
    (destroyCell (destroyCell s i).fst i).snd = 0 ∧
    (destroyCell (destroyCell s i).fst i).fst = (destroyCell s i).fst ∧
    ∀ v, notifyCell (destroyCell s i).fst i v = ((destroyCell s i).fst, []) := by
  have hi : i < s.length := lt_length_of_getElem?_eq_some hc
  obtain ⟨ck, cu, ccur, cinit, cupd, creg, csync, cps⟩ := c
  cases csync with
  | true =>
    have h1 : (s.set i ⟨ck, cu, ccur, cinit, cupd, false, false, cps⟩)[i]? =
        some ⟨ck, cu, ccur, cinit, cupd, false, false, cps⟩ :=
      List.getElem?_set_self (by simpa using hi)
    refine ⟨?_, ?_, ?_⟩ <;>
      simp [destroyCell, notifyCell, hc, h1, List.set_set]
  | false =>
    have h1 : (s.set i ⟨ck, cu, ccur, cinit, cupd, false, false, cps⟩)[i]? =
        some ⟨ck, cu, ccur, cinit, cupd, false, false, cps⟩ :=
      List.getElem?_set_self (by simpa using hi)
    refine ⟨?_, ?_, ?_⟩ <;>
      simp [destroyCell, notifyCell, hc, h1, List.set_set]

/-- C9 witness: a live subscribed cell; after the first `destroy` a
notification with a fresh value leaves the system unchanged, and the second
`destroy` invokes the unsubscribe closure zero times (the first invoked it
once). -/
theorem destroy_is_terminal_witness :
    (destroyCell [sampleCell "k" (JSVal.prim "a")] 0).snd = 1 ∧
    (destroyCell (destroyCell [sampleCell "k" (JSVal.prim "a")] 0).fst 0).snd = 0 ∧
    notifyCell (destroyCell [sampleCell "k" (JSVal.prim "a")] 0).fst 0
        (some (JSVal.prim "X")) =
      ((destroyCell [sampleCell "k" (JSVal.prim "a")] 0).fst, []) := by
  have h := destroy_is_terminal [sampleCell "k" (JSVal.prim "a")] 0
    (sampleCell "k" (JSVal.prim "a")) rfl
  exact ⟨by decide, h.1, h.2.2 (some (JSVal.prim "X"))⟩

/-- C3: a cross-process notification delivering a non-null value `x` to a
subscribed cell that is not mid-update issues **no** backend `set` at all
(the effect list is empty — neither the notified cell nor any sibling writes
back, because the adoption is a guarded bare assignment, `part_005` lines
127-134), sets the notified cell's `currentValue` to `x` in this single
atomic step, and fans `x` out to every other registered same-key sibling
whose guard is clear while leaving every other cell untouched. -/
theorem cross_process_adoption_never_loops (s : CellSys) (i : Nat) (c : Cell)
    (x : JSVal) (hc : s[i]? = some c) (hsync : c.syncActive = true)
    (hupd : c.isUpdating = false) :
    (notifyCell s i (some x)).snd = [] ∧
    (notifyCell s i (some x)).fst[i]? = some { c with current := x } ∧
    ∀ j cj, j ≠ i → s[j]? = some cj →
      (notifyCell s i (some x)).fst[j]? =
        some (if cj.registered && (cj.compositeKey == c.compositeKey)
                  && !cj.isUpdating
              then { cj with current := x } else cj) := by
  have hi : i < s.length := lt_length_of_getElem?_eq_some hc
  obtain ⟨ck, cu, ccur, cinit, cupd, creg, csync, cps⟩ := c
  have hsync' : csync = true := hsync
  have hupd' : cupd = false := hupd
  subst hsync' hupd'
  have hset : (s.set i ⟨ck, cu, x, cinit, false, creg, true, cps⟩)[i]? =
      some ⟨ck, cu, x, cinit, false, creg, true, cps⟩ :=
    List.getElem?_set_self (by simpa using hi)
  refine ⟨?_, ?_, ?_⟩
  · simp [notifyCell, hc]
  · simp [notifyCell, hc, syncOtherInstances_self, hset]
  · intro j cj hji hcj
    have hset' : (s.set i ⟨ck, cu, x, cinit, false, creg, true, cps⟩)[j]? =
        some cj := by
      rw [List.getElem?_set_ne (Ne.symm hji)]
      exact hcj
    simp [notifyCell, hc, syncOtherInstances_other _ _ _ _ _ hji, hset']

/-- C3 witness: two same-key subscribed cells; notifying cell 0 with `"X"`
issues no backend effect, sets cell 0's value to `"X"`, and propagates `"X"`
to its sibling. -/
theorem cross_process_adoption_never_loops_witness :
    (notifyCell [sampleCell "k" (JSVal.prim "a"), sampleCell "k" (JSVal.prim "b")]
        0 (some (JSVal.prim "X"))).snd = [] ∧
    (notifyCell [sampleCell "k" (JSVal.prim "a"), sampleCell "k" (JSVal.prim "b")]
        0 (some (JSVal.prim "X"))).fst[0]? =
      some { sampleCell "k" (JSVal.prim "a") with current := JSVal.prim "X" } ∧
    (notifyCell [sampleCell "k" (JSVal.prim "a"), sampleCell "k" (JSVal.prim "b")]
        0 (some (JSVal.prim "X"))).fst[1]? =
      some { sampleCell "k" (JSVal.prim "b") with current := JSVal.prim "X" } := by
  have h := cross_process_adoption_never_loops
    [sampleCell "k" (JSVal.prim "a"), sampleCell "k" (JSVal.prim "b")] 0
    (sampleCell "k" (JSVal.prim "a")) (JSVal.prim "X") rfl rfl rfl
  refine ⟨h.1, h.2.1, ?_⟩
  have h2 := h.2.2 1 (sampleCell "k" (JSVal.prim "b")) (by decide) rfl
  simpa [sampleCell, Cell.compositeKey] using h2

/-- C2 counterexample: a cell currently holding the non-absent value `"A"`
(initial value `undefined`, as when the binding is constructed without an
`initialValue` option) undergoes an argument change from serialized key `"1"`
to `"2"`.  The effect calls `newKey` **without** retention (the `retainValue`
parameter is not passed at `remoteFunctionCache.svelte.ts` line 140 and
defaults to `false`), so `currentValue` IS transiently reset to the initial
value `undefined` — refuting the claim that retention is enabled and the
value is never reset. -/
theorem arg_change_resets_value_counterexample :
    (sampleCell "fn-1" (JSVal.prim "A")).current ≠ JSVal.undef ∧
    (argChangeEffect "fn" JSVal.undef [sampleCell "fn-1" (JSVal.prim "A")] 0
        (some "1") "2").fst[0]? =
      some { key := "fn-2", uniquekey := none, current := JSVal.undef,
             initialValue := JSVal.undef, isUpdating := false,
             registered := true, syncActive := true,
             providerHasSync := true } := by
  constructor
  · decide
  · decide

/-- C2 (amended): when the serialized argument key changes, the
argument-change effect records the new key, produces the new composite key
`<functionKey>-<serializedArg>` (used both for the cell and for the
asynchronous load it triggers), and triggers exactly one `refresh`; but
`newKey` is called **without** value retention (`retainValue` defaults to
`false`), so the cell's `currentValue` is reset to the (possibly updated)
initial value during the re-key rather than being preserved. -/
theorem arg_change_rekeys_without_retention (functionKey : String)
    (initialValue : JSVal) (s : CellSys) (i : Nat) (c : Cell)
    (prevKey : Option String) (argKey : String)
    (hc : s[i]? = some c) (hu : c.uniquekey = none)
    (hchange : prevKey ≠ some argKey) :
    (argChangeEffect functionKey initialValue s i prevKey argKey).2.2.1 = 1 ∧
    (argChangeEffect functionKey initialValue s i prevKey argKey).2.1 =
      some argKey ∧
    (argChangeEffect functionKey initialValue s i prevKey argKey).2.2.2 =
      [Effect.bget (bindingCompositeKey functionKey argKey)] ∧
    (argChangeEffect functionKey initialValue s i prevKey argKey).fst[i]? =
      some { key := bindingCompositeKey functionKey argKey,
             uniquekey := none,
             current := if initialValue ≠ JSVal.undef then initialValue
                        else c.initialValue,
             initialValue := if initialValue ≠ JSVal.undef then initialValue
                             else c.initialValue,
             isUpdating := c.isUpdating,
             registered := true,
             syncActive := c.providerHasSync,
             providerHasSync := c.providerHasSync } := by
  have hi : i < s.length := lt_length_of_getElem?_eq_some hc
  obtain ⟨ck, cu, ccur, cinit, cupd, creg, csync, cps⟩ := c
  have hu' : cu = none := hu
  subst hu'
  have hsetg : ∀ d : Cell, (s.set i d)[i]? = some d :=
    fun d => List.getElem?_set_self (by simpa using hi)
  by_cases hinit : initialValue = JSVal.undef
  · subst hinit
    by_cases hciv : cinit = JSVal.undef
    · subst hciv
      refine ⟨?_, ?_, ?_, ?_⟩ <;>
        simp [argChangeEffect, if_pos hchange, newKey, hc,
          syncOtherInstances_self, hsetg, Cell.compositeKey,
          bindingCompositeKey]
    · refine ⟨?_, ?_, ?_, ?_⟩ <;>
        simp [argChangeEffect, if_pos hchange, newKey, hc, hciv,
          syncOtherInstances_self, hsetg, Cell.compositeKey,
          bindingCompositeKey]
  · refine ⟨?_, ?_, ?_, ?_⟩ <;>
      simp [argChangeEffect, if_pos hchange, newKey, hc, hinit,
        syncOtherInstances_self, hsetg, Cell.compositeKey,
        bindingCompositeKey]

/-- C2 witness: the amended theorem instantiated at the counterexample
scenario — one refresh is triggered and the cell is re-keyed to `"fn-2"`
with its value reset to the initial `undefined`. -/
theorem arg_change_rekeys_without_retention_witness :
    (argChangeEffect "fn" JSVal.undef [sampleCell "fn-1" (JSVal.prim "A")] 0
        (some "1") "2").2.2.1 = 1 ∧
    (argChangeEffect "fn" JSVal.undef [sampleCell "fn-1" (JSVal.prim "A")] 0
        (some "1") "2").2.1 = some "2" ∧
    (argChangeEffect "fn" JSVal.undef [sampleCell "fn-1" (JSVal.prim "A")] 0
        (some "1") "2").fst[0]? =
      some { key := bindingCompositeKey "fn" "2", uniquekey := none,
             current := JSVal.undef, initialValue := JSVal.undef,
             isUpdating := false, registered := true, syncActive := true,
             providerHasSync := true } := by
  have h := arg_change_rekeys_without_retention "fn" JSVal.undef
    [sampleCell "fn-1" (JSVal.prim "A")] 0 (sampleCell "fn-1" (JSVal.prim "A"))
    (some "1") "2" rfl rfl (by decide)
  refine ⟨h.1, h.2.1, ?_⟩
  have h4 := h.2.2.2
  simpa [sampleCell] using h4

/-- C4 counterexample: the claim quantifies over every non-null
`timeoutMinutes = m`, but the code's `isTimeoutEnabled` additionally requires
`m > 0`.  At `m = 0` (non-null) with a record written at `t = 0` and read at
`now = t + m*60000 + 1 = 1`, the claimed expiry condition
`now - t > m * 60000` holds, yet `get` returns the stored value instead of
`null` and removes nothing. -/
theorem expiry_at_zero_timeout_counterexample :
    ((1 : Int) - 0 > 0 * 60000) ∧
    LocalStorageProvider.get (idOptions (some 0))
        [("k", StoredDoc.wrapped (JSVal.prim "v") 0)] 1 "k" =
      (some (JSVal.prim "v"), [("k", StoredDoc.wrapped (JSVal.prim "v") 0)]) := by
  constructor
  · decide
  · rfl

/-- C4 (amended): for a stored wrapped record with timestamp `t` read at
time `now`: with `timeoutMinutes = m` and `m > 0` the record is expired iff
`now - t > m * 60000` — when expired it is removed on read and `null` is
returned, otherwise the value is returned (hence it is still returned at
`t + m*60000 - 1` and gone at `t + m*60000 + 1`); with `timeoutMinutes`
null/absent, or non-null but `m ≤ 0`, the record never expires
(`isTimeoutEnabled` requires `timeoutMinutes > 0`,
`LocalStorageProvider.ts` lines 102-110). -/
theorem expiry_boundary_amended {β : Type} (o : StorageOptions β)
    (store : Store β) (now : Int) (key : String) (blob : β) (v : JSVal)
    (t : Int) (hl : store.lookup key = some blob)
    (hd : o.deserialize blob = Except.ok (StoredDoc.wrapped v t)) :
    (∀ m : Int, o.timeoutMinutes = some m → 0 < m →
      ((now - t > m * 60000 →
         LocalStorageProvider.get o store now key =
           (none, storeRemove store key)) ∧
       (now - t ≤ m * 60000 →
         LocalStorageProvider.get o store now key = (some v, store)))) ∧
    (o.timeoutMinutes = none →
      LocalStorageProvider.get o store now key = (some v, store)) ∧
    (∀ m : Int, o.timeoutMinutes = some m → m ≤ 0 →
      LocalStorageProvider.get o store now key = (some v, store)) := by
  refine ⟨?_, ?_, ?_⟩
  · intro m hm hmpos
    constructor
    · intro hexp
      simp [LocalStorageProvider.get, hl, hd, isDataExpired, isTimeoutEnabled,
        hm, hmpos, hexp]
    · intro hfresh
      simp [LocalStorageProvider.get, hl, hd, isDataExpired, isTimeoutEnabled,
        hm, hmpos, not_lt.mpr hfresh]
  · intro hm
    simp [LocalStorageProvider.get, hl, hd, isDataExpired, isTimeoutEnabled,
      hm]
  · intro m hm hmneg
    simp [LocalStorageProvider.get, hl, hd, isDataExpired, isTimeoutEnabled,
      hm, not_lt.mpr hmneg]

/-- C4 witness: `m = 1`, record written at `t = 0`: the amended theorem
applied at `now = 59999` (returned) and at `now = 60001` (null, record
removed). -/
theorem expiry_boundary_amended_witness :
    LocalStorageProvider.get (idOptions (some 1))
        [("k", StoredDoc.wrapped (JSVal.prim "v") 0)] 59999 "k" =
      (some (JSVal.prim "v"), [("k", StoredDoc.wrapped (JSVal.prim "v") 0)]) ∧
    LocalStorageProvider.get (idOptions (some 1))
        [("k", StoredDoc.wrapped (JSVal.prim "v") 0)] 60001 "k" =
      (none, []) := by
  have hFresh := expiry_boundary_amended (idOptions (some 1))
    [("k", StoredDoc.wrapped (JSVal.prim "v") 0)] 59999 "k"
    (StoredDoc.wrapped (JSVal.prim "v") 0) (JSVal.prim "v") 0 (by decide) rfl
  have hExp := expiry_boundary_amended (idOptions (some 1))
    [("k", StoredDoc.wrapped (JSVal.prim "v") 0)] 60001 "k"
    (StoredDoc.wrapped (JSVal.prim "v") 0) (JSVal.prim "v") 0 (by decide) rfl
  constructor
  · exact (hFresh.1 1 rfl (by decide)).2 (by decide)
  · have h := (hExp.1 1 rfl (by decide)).1 (by decide)
    simpa [storeRemove] using h

/-- C5 counterexample: `IndexedDBStorageProvider.set` ends with
`return new Promise(...)` whose `request.onerror` handler calls
`reject(request.error)`; because the promise is returned without `await`,
the surrounding `try/catch` does not intercept the rejection
(`IndexedDBStorageProvider.ts` lines 83-101).  With the connection open and
the `put` request failing, the promise returned to the caller rejects —
refuting "`set` never propagates an error to its caller". -/
theorem idb_set_rejects_on_put_failure :
    IndexedDBStorageProvider.set (idOptions none) false true [] 0 "k"
        (JSVal.prim "v") =
      Except.error "request.error" := rfl

/-- C5 (amended): `get` never throws and returns `null` on any failure
(missing key, parse error; expiry is covered by `expiry_boundary_amended`),
for both the synchronous providers and IndexedDB (whose `get` resolves
`null` on connection failure, request error and deserialize error alike);
`set` swallows failures for the synchronous localStorage/memory providers
(identically for sessionStorage); IndexedDB `set` swallows connection-open
and serializer failures, but its returned promise rejects exactly when the
connection opened, serialization succeeded, and the `put` request failed. -/
theorem storage_failures_swallowed_except_idb_put {β : Type} :
    (∀ (o : StorageOptions β) (store : Store β) (now : Int) (key : String),
       store.lookup key = none →
       LocalStorageProvider.get o store now key = (none, store) ∧
       MemoryStorageProvider.get o store now key = (none, store)) ∧
    (∀ (o : StorageOptions β) (store : Store β) (now : Int) (key : String)
       (blob : β),
       store.lookup key = some blob → (o.deserialize blob).isOk = false →
       LocalStorageProvider.get o store now key = (none, store) ∧
       MemoryStorageProvider.get o store now key = (none, store)) ∧
    (∀ (o : StorageOptions β) (store : Store β) (now : Int) (key : String)
       (v : JSVal),
       (o.serialize v now).isOk = false →
       LocalStorageProvider.set o store now key v = store ∧
       MemoryStorageProvider.set o store now key v = store) ∧
    (∀ (o : StorageOptions β) (openFails getFails : Bool) (store : Store β)
       (now : Int) (key : String),
       (IndexedDBStorageProvider.get o openFails getFails store now key).isOk =
         true) ∧
    (∀ (o : StorageOptions β) (openFails putFails : Bool) (store : Store β)
       (now : Int) (key : String) (v : JSVal),
       (IndexedDBStorageProvider.set o openFails putFails store now key v).isOk =
         (openFails || !putFails || !(o.serialize v now).isOk)) := by
  refine ⟨?_, ?_, ?_, ?_, ?_⟩
  · intro o store now key hl
    constructor <;> simp [LocalStorageProvider.get, MemoryStorageProvider.get, hl]
  · intro o store now key blob hl hde
    have hde' : ∃ e, o.deserialize blob = Except.error e := by
      cases h : o.deserialize blob with
      | error e => exact ⟨e, rfl⟩
      | ok d =>
        rw [h] at hde
        exact absurd hde (by simp [Except.isOk, Except.toBool])
    rcases hde' with ⟨e, he⟩
    constructor <;>
      simp [LocalStorageProvider.get, MemoryStorageProvider.get, hl, he]
  · intro o store now key v hser
    have hser' : ∃ e, o.serialize v now = Except.error e := by
      cases h : o.serialize v now with
      | error e => exact ⟨e, rfl⟩
      | ok b =>
        rw [h] at hser
        exact absurd hser (by simp [Except.isOk, Except.toBool])
    rcases hser' with ⟨e, he⟩
    constructor <;>
      simp [LocalStorageProvider.set, MemoryStorageProvider.set, he]
  · intro o openFails getFails store now key
    cases openFails with
    | true => simp [IndexedDBStorageProvider.get, Except.isOk, Except.toBool]
    | false =>
      cases getFails with
      | true => simp [IndexedDBStorageProvider.get, Except.isOk, Except.toBool]
      | false =>
        cases hl : store.lookup key with
        | none =>
          simp [IndexedDBStorageProvider.get, hl, Except.isOk, Except.toBool]
        | some blob =>
          cases hd : o.deserialize blob with
          | error e =>
            simp [IndexedDBStorageProvider.get, hl, hd, Except.isOk,
              Except.toBool]
          | ok d =>
            cases d with
            | wrapped v ts =>
              cases hexp : isDataExpired o.timeoutMinutes now ts <;>
                simp [IndexedDBStorageProvider.get, hl, hd, hexp, Except.isOk,
                  Except.toBool]
            | legacy v =>
              simp [IndexedDBStorageProvider.get, hl, hd, Except.isOk,
                Except.toBool]
  · intro o openFails putFails store now key v
    cases openFails with
    | true => simp [IndexedDBStorageProvider.set, Except.isOk, Except.toBool]
    | false =>
      cases hs : o.serialize v now with
      | error e =>
        cases putFails <;>
          simp [IndexedDBStorageProvider.set, hs, Except.isOk, Except.toBool]
      | ok blob =>
        cases putFails <;>
          simp [IndexedDBStorageProvider.set, hs, Except.isOk, Except.toBool]

/-- C5 witness: the amended theorem instantiated — missing key, corrupted
blob and failing serializer all yield `null`/no-op for the synchronous
providers; IndexedDB `get` resolves under a connection failure; IndexedDB
`set` with a failing `put` request is not ok. -/
theorem storage_failures_swallowed_except_idb_put_witness :
    LocalStorageProvider.get (idOptions none) ([] : Store StoredDoc) 0 "k" =
      (none, []) ∧
    LocalStorageProvider.get failingOptions
        [("k", StoredDoc.legacy (JSVal.prim "v"))] 0 "k" =
      (none, [("k", StoredDoc.legacy (JSVal.prim "v"))]) ∧
    LocalStorageProvider.set failingOptions ([] : Store StoredDoc) 0 "k"
        (JSVal.prim "v") = [] ∧
    (IndexedDBStorageProvider.get (idOptions none) true false
        ([] : Store StoredDoc) 0 "k").isOk = true ∧
    (IndexedDBStorageProvider.set (idOptions none) false true
        ([] : Store StoredDoc) 0 "k" (JSVal.prim "v")).isOk = false := by
  have h := storage_failures_swallowed_except_idb_put (β := StoredDoc)
  refine ⟨(h.1 (idOptions none) [] 0 "k" rfl).1, ?_, ?_, ?_, ?_⟩
  · exact (h.2.1 failingOptions [("k", StoredDoc.legacy (JSVal.prim "v"))] 0 "k"
      (StoredDoc.legacy (JSVal.prim "v")) rfl rfl).1
  · exact (h.2.2.1 failingOptions [] 0 "k" (JSVal.prim "v") rfl).1
  · exact h.2.2.2.1 (idOptions none) true false [] 0 "k"
  · have := h.2.2.2.2 (idOptions none) false true [] 0 "k" (JSVal.prim "v")
    simpa [idOptions, Except.isOk] using this

/-- Overwriting a key makes it the one found by lookup (helper). -/
theorem lookup_storePut_self {β : Type} (store : Store β) (k : String)
    (b : β) : (storePut store k b).lookup k = some b := by
  simp [storePut, List.lookup]

/-- A record read back at its own write timestamp is never expired: the
expiry test is strict (`now - timestamp > timeoutMs`), so `0 > m * 60000`
fails for every enabled (positive) timeout (helper). -/
theorem isDataExpired_at_write_time (tm : Option Int) (now : Int) :
    isDataExpired tm now now = false := by
  unfold isDataExpired isTimeoutEnabled
  cases tm with
  | none => simp
  | some m =>
    by_cases hm : 0 < m
    · have h60 : ¬(now - now > m * 60000) := by omega
      simp [hm, h60]
    · simp [hm]

/-- C10: all `MemoryStorageProvider` instances operate on the single
module-level `memoryStorage` map (`src/unnamed/part_003` line 4) — here the
shared map is the explicit `store` both instances receive.  After `set`
through one instance, `get` through any other instance whose deserializer
round-trips the first instance's blob returns the stored value (read at the
write time, the record is unexpired for every timeout configuration of the
reading instance), and the static `clear` empties the map for every
instance. -/
theorem memory_store_shared_across_instances {β : Type}
    (o1 o2 : StorageOptions β) (store : Store β) (now : Int) (k : String)
    (v : JSVal) (blob : β)
    (hser : o1.serialize v now = Except.ok blob)
    (hde : o2.deserialize blob = Except.ok (StoredDoc.wrapped v now)) :
    (MemoryStorageProvider.get o2 (MemoryStorageProvider.set o1 store now k v)
        now k).fst = some v ∧
    (∀ (o3 : StorageOptions β) (key : String),
       MemoryStorageProvider.get o3 (MemoryStorageProvider.clear) now key =
         (none, MemoryStorageProvider.clear)) := by
  constructor
  · have hput : MemoryStorageProvider.set o1 store now k v = storePut store k blob := by
      simp [MemoryStorageProvider.set, hser]
    rw [hput]
    simp [MemoryStorageProvider.get, lookup_storePut_self, hde,
      isDataExpired_at_write_time]
  · intro o3 key
    simp [MemoryStorageProvider.get, MemoryStorageProvider.clear]

/-- C10 witness: two provider instances with different options (the writer
has a 5-minute timeout, the reader none) over the shared map; the written
value is read back through the other instance, and after the static `clear`
every read misses. -/
theorem memory_store_shared_across_instances_witness :
    (MemoryStorageProvider.get (idOptions none)
        (MemoryStorageProvider.set (idOptions (some 5)) [] 7 "k"
          (JSVal.prim "v")) 7 "k").fst = some (JSVal.prim "v") ∧
    MemoryStorageProvider.get (idOptions none)
        (MemoryStorageProvider.clear : Store StoredDoc) 7 "x" = (none, []) := by
  have h := memory_store_shared_across_instances (idOptions (some 5))
    (idOptions none) [] 7 "k" (JSVal.prim "v")
    (StoredDoc.wrapped (JSVal.prim "v") 7) rfl rfl
  exact ⟨h.1, h.2 (idOptions none) "x"⟩
